import Mathlib

/-!
Shallow embedding of the campus event management backend
(`backend/models/{event,registration,user}.py`,
`backend/services/{event_service,registration_service}.py`).

The JSON file store is modelled as in-memory lists of typed records; each
service method becomes a pure function from a `State` to an outcome together
with the updated `State`.  Wall-clock timestamps are threaded as explicit
`String` parameters (`now`), and `datetime.fromisoformat` together with the
comparison against `datetime.now()` is abstracted as a `Clock`: a partial
parse function from date strings to an ordered time axis (`Int`) plus the
current instant, mirroring the `try/except` in
`Event.is_available_for_registration`.
-/

namespace CampusEvent

/-- The `RegistrationStatus` enum of `models/registration.py`. -/
inductive RegStatus where
  | pending
  | confirmed
  | cancelled
  | attended
  | noShow
deriving DecidableEq, Repr

/-- String tag of a registration status (`RegistrationStatus(...).value`). -/
def RegStatus.value : RegStatus → String
  | .pending => "pending"
  | .confirmed => "confirmed"
  | .cancelled => "cancelled"
  | .attended => "attended"
  | .noShow => "no_show"

/-- Lookup `RegistrationStatus(s)`: look a status up by its string tag; `none`
models the `ValueError` Python raises on an unknown tag. -/
def RegStatus.ofValue : String → Option RegStatus
  | "pending" => some .pending
  | "confirmed" => some .confirmed
  | "cancelled" => some .cancelled
  | "attended" => some .attended
  | "no_show" => some .noShow
  | _ => none

/-- The `EventStatus` enum of `models/event.py`. -/
inductive EventStatus where
  | draft
  | active
  | cancelled
  | completed
deriving DecidableEq, Repr

def EventStatus.value : EventStatus → String
  | .draft => "draft"
  | .active => "active"
  | .cancelled => "cancelled"
  | .completed => "completed"

def EventStatus.ofValue : String → Option EventStatus
  | "draft" => some .draft
  | "active" => some .active
  | "cancelled" => some .cancelled
  | "completed" => some .completed
  | _ => none

/-- The `EventCategory` enum of `models/event.py`. -/
inductive EventCategory where
  | academic
  | cultural
  | sports
  | workshop
  | seminar
  | competition
  | other
deriving DecidableEq, Repr

def EventCategory.value : EventCategory → String
  | .academic => "academic"
  | .cultural => "cultural"
  | .sports => "sports"
  | .workshop => "workshop"
  | .seminar => "seminar"
  | .competition => "competition"
  | .other => "other"

def EventCategory.ofValue : String → Option EventCategory
  | "academic" => some .academic
  | "cultural" => some .cultural
  | "sports" => some .sports
  | "workshop" => some .workshop
  | "seminar" => some .seminar
  | "competition" => some .competition
  | "other" => some .other
  | _ => none

/-- The `UserRole` enum of `models/user.py`. -/
inductive UserRole where
  | admin
  | organizer
  | student
  | visitor
deriving DecidableEq, Repr

/-- A `Registration` record (`models/registration.py`).  Timestamps are the
ISO strings the Python code stores. -/
structure Registration where
  registration_id : String
  event_id : String
  user_id : String
  status : RegStatus
  registered_at : String
  updated_at : String
  notes : String
deriving DecidableEq, Repr

namespace Registration

/-- Constructor `Registration.__init__`: a fresh registration is created `CONFIRMED`
with empty notes; `now` stands for `datetime.now().isoformat()`. -/
def init (registration_id event_id user_id now : String) : Registration :=
  { registration_id := registration_id
    event_id := event_id
    user_id := user_id
    status := .confirmed
    registered_at := now
    updated_at := now
    notes := "" }

/-- Method `Registration.is_active`. -/
def is_active (r : Registration) : Bool :=
  r.status == .pending || r.status == .confirmed

/-- Method `Registration.cancel`. -/
def cancel (r : Registration) (reason now : String) : Registration :=
  { r with status := .cancelled, notes := reason, updated_at := now }

/-- Method `Registration.mark_attended`. -/
def mark_attended (r : Registration) (now : String) : Registration :=
  { r with status := .attended, updated_at := now }

/-- Method `Registration.mark_no_show`. -/
def mark_no_show (r : Registration) (now : String) : Registration :=
  { r with status := .noShow, updated_at := now }

end Registration

/-- An `Event` record (`models/event.py`). -/
structure Event where
  event_id : String
  title : String
  description : String
  organizer_id : String
  event_date : String
  location : String
  max_capacity : Nat
  category : EventCategory
  status : EventStatus
  created_at : String
  updated_at : String
  current_attendees : Nat
  tags : List String
deriving DecidableEq, Repr

/-- The `datetime` collaborator: a partial parse of date strings onto an
ordered time axis, plus the current instant.  `parse s = none` models
`datetime.fromisoformat(s)` raising. -/
structure Clock where
  parse : String → Option Int
  now : Int

namespace Event

/-- Method `Event.is_available_for_registration`: active, below capacity, and the
event date either parses to a strictly future instant or fails to parse at
all (the bare `except: return True`). -/
def is_available_for_registration (e : Event) (c : Clock) : Bool :=
  if e.status != .active then false
  else if e.current_attendees ≥ e.max_capacity then false
  else
    match c.parse e.event_date with
    | some t => decide (c.now < t)
    | none => true

/-- Method `Event.add_attendee`: increments only below capacity; returns the Python
method's boolean alongside the updated record. -/
def add_attendee (e : Event) (now : String) : Event × Bool :=
  if e.current_attendees < e.max_capacity then
    ({ e with current_attendees := e.current_attendees + 1, updated_at := now }, true)
  else
    (e, false)

/-- Method `Event.remove_attendee`: decrements only above zero. -/
def remove_attendee (e : Event) (now : String) : Event × Bool :=
  if e.current_attendees > 0 then
    ({ e with current_attendees := e.current_attendees - 1, updated_at := now }, true)
  else
    (e, false)

/-- Method `Event.is_full`. -/
def is_full (e : Event) : Bool :=
  e.current_attendees ≥ e.max_capacity

end Event

/-- A `User` record (`models/user.py`). -/
structure User where
  user_id : String
  username : String
  email : String
  password : String
  role : UserRole
  full_name : String
  created_at : String
  last_login : Option String
  is_active : Bool
deriving DecidableEq, Repr

/-- The `User.has_permission` lookup table: the exact action lists of
`models/user.py`. -/
def rolePermissions : UserRole → List String
  | .admin =>
      ["create_event", "update_event", "delete_event",
       "view_all_events", "view_all_users", "generate_reports"]
  | .organizer =>
      ["create_event", "update_own_event", "delete_own_event",
       "view_own_events", "manage_registrations"]
  | .student =>
      ["view_events", "register_event", "view_own_registrations"]
  | .visitor =>
      ["view_events", "register_event"]

/-- Method `User.has_permission`: membership of the action in the actor role's
permission list. -/
def User.has_permission (u : User) (action : String) : Bool :=
  (rolePermissions u.role).contains action

/-! ## The persisted store and the service layer

`data/events.json` and `data/registrations.json` are ordered collections of
records; `load_json` reads the whole list and `save_json` rewrites it.  The
service methods below reproduce `EventService` and `RegistrationService`
verbatim on this state. -/

/-- The two collections the registration subsystem touches. -/
structure State where
  events : List Event
  registrations : List Registration
deriving DecidableEq, Repr

/-- Method `EventService.get_event_by_id`: first record whose `event_id` matches. -/
def getEventById (l : List Event) (event_id : String) : Option Event :=
  match l with
  | [] => none
  | e :: es => if e.event_id == event_id then some e else getEventById es event_id

/-- Method `EventService._save_event`: overwrite the first record with the same
`event_id`; a record with an unknown id leaves the list unchanged. -/
def saveEventList (l : List Event) (ev : Event) : List Event :=
  match l with
  | [] => []
  | e :: es => if e.event_id == ev.event_id then ev :: es else e :: saveEventList es ev

/-- Method `RegistrationService.get_registration`: first record matching both
`event_id` and `user_id` (regardless of its status). -/
def getRegistration (l : List Registration) (event_id user_id : String) :
    Option Registration :=
  match l with
  | [] => none
  | r :: rs =>
      if r.event_id == event_id && r.user_id == user_id then some r
      else getRegistration rs event_id user_id

/-- Method `RegistrationService._save_registration`: overwrite the first record with
the same `registration_id`. -/
def saveRegList (l : List Registration) (r : Registration) : List Registration :=
  match l with
  | [] => []
  | x :: xs =>
      if x.registration_id == r.registration_id then r :: xs
      else x :: saveRegList xs r

/-- Outcomes of `RegistrationService.register_for_event`, one constructor per
distinct returned message. -/
inductive RegOutcome where
  | success (r : Registration)
  | eventNotFound
  | eventNotAvailable
  | alreadyRegistered
  | eventFull
deriving DecidableEq, Repr

/-- Method `RegistrationService.register_for_event`.  `newId` stands for the fresh
`reg_<token>` id and `now` for `datetime.now().isoformat()`.  Checks run in
the order of the source: event exists, event available, no active existing
registration for the pair, event not full; then the registration is appended
and the event's attendee count incremented and saved. -/
def registerForEvent (st : State) (c : Clock) (event_id user_id newId now : String) :
    RegOutcome × State :=
  match getEventById st.events event_id with
  | none => (.eventNotFound, st)
  | some ev =>
      if ¬ ev.is_available_for_registration c then (.eventNotAvailable, st)
      else if (getRegistration st.registrations event_id user_id).any
                (fun r => r.is_active) then
        (.alreadyRegistered, st)
      else if ev.is_full then (.eventFull, st)
      else
        let reg := Registration.init newId event_id user_id now
        let regs := st.registrations ++ [reg]
        let ev1 := (ev.add_attendee now).1
        (.success reg, { events := saveEventList st.events ev1, registrations := regs })

/-- Outcomes of `RegistrationService.cancel_registration`. -/
inductive CancelOutcome where
  | ok
  | registrationNotFound
  | alreadyCancelled
deriving DecidableEq, Repr

/-- Method `RegistrationService.cancel_registration`: fetch the pair's registration
(first match), reject a missing or inactive one, otherwise cancel and save
it, then decrement and save the event when it exists. -/
def cancelRegistration (st : State) (event_id user_id reason now : String) :
    CancelOutcome × State :=
  match getRegistration st.registrations event_id user_id with
  | none => (.registrationNotFound, st)
  | some r =>
      if ¬ r.is_active then (.alreadyCancelled, st)
      else
        let regs := saveRegList st.registrations (r.cancel reason now)
        match getEventById st.events event_id with
        | some ev =>
            (.ok, { events := saveEventList st.events ((ev.remove_attendee now).1)
                    registrations := regs })
        | none => (.ok, { st with registrations := regs })

/-- The loop body of `RegistrationService.mark_attendance`: walk the stored
list, and at the first record with the given `registration_id` apply
`mark_attended` or `mark_no_show` (no status guard) and stop; `none` when the
id is absent. -/
def markAttendanceList (l : List Registration) (registration_id : String)
    (attended : Bool) (now : String) : Option (List Registration) :=
  match l with
  | [] => none
  | r :: rs =>
      if r.registration_id == registration_id then
        some ((if attended then r.mark_attended now else r.mark_no_show now) :: rs)
      else
        (markAttendanceList rs registration_id attended now).map (r :: ·)

/-- Method `RegistrationService.mark_attendance`: `true` on success (the record was
found and rewritten), `false` for the not-found outcome. -/
def markAttendance (st : State) (registration_id : String) (attended : Bool)
    (now : String) : Bool × State :=
  match markAttendanceList st.registrations registration_id attended now with
  | some regs => (true, { st with registrations := regs })
  | none => (false, st)

/-- The for-loop of `RegistrationService.bulk_cancel_event_registrations`:
iterate over a snapshot of the event's registrations; each active one is
cancelled and written back (by `_save_registration`), bumping the counter. -/
def bulkCancelLoop (snapshot : List Registration) (st : State) (count : Nat)
    (reason now : String) : State × Nat :=
  match snapshot with
  | [] => (st, count)
  | r :: rs =>
      if r.is_active then
        bulkCancelLoop rs
          { st with registrations := saveRegList st.registrations (r.cancel reason now) }
          (count + 1) reason now
      else
        bulkCancelLoop rs st count reason now

/-- Method `RegistrationService.bulk_cancel_event_registrations`: snapshot the
event's registrations, cancel the active ones one save at a time, return the
final state and the cancelled count. -/
def bulkCancelEventRegistrations (st : State) (event_id reason now : String) :
    State × Nat :=
  bulkCancelLoop (st.registrations.filter (fun r => r.event_id == event_id)) st 0
    reason now

/-! ## Serialization (`to_dict` / `from_dict`)

A stored JSON record is modelled as a structure with one field per key;
keys read back with `data.get(key, default)` are `Option`-valued, keys read
with `data[key]` are mandatory. -/

/-- The dictionary shape produced and consumed by
`Registration.to_dict` / `Registration.from_dict`. -/
structure RegDict where
  registration_id : String
  event_id : String
  user_id : String
  status : Option String
  registered_at : Option String
  updated_at : Option String
  notes : Option String
deriving DecidableEq, Repr

/-- Method `Registration.to_dict`: every field serialized, enum as its tag. -/
def Registration.to_dict (r : Registration) : RegDict :=
  { registration_id := r.registration_id
    event_id := r.event_id
    user_id := r.user_id
    status := some r.status.value
    registered_at := some r.registered_at
    updated_at := some r.updated_at
    notes := some r.notes }

/-- Method `Registration.from_dict`: rebuild the record, defaulting a missing status
to `"confirmed"`, missing timestamps to `now` and missing notes to `""`;
`none` models the `ValueError` of an unknown status tag. -/
def Registration.from_dict (d : RegDict) (now : String) : Option Registration :=
  (RegStatus.ofValue (d.status.getD "confirmed")).map fun s =>
    { registration_id := d.registration_id
      event_id := d.event_id
      user_id := d.user_id
      status := s
      registered_at := d.registered_at.getD now
      updated_at := d.updated_at.getD now
      notes := d.notes.getD "" }

/-- The dictionary shape produced and consumed by
`Event.to_dict` / `Event.from_dict`. -/
structure EventDict where
  event_id : String
  title : String
  description : String
  organizer_id : String
  event_date : String
  location : String
  max_capacity : Nat
  category : Option String
  status : Option String
  created_at : Option String
  updated_at : Option String
  current_attendees : Option Nat
  tags : Option (List String)
deriving DecidableEq, Repr

/-- Method `Event.to_dict`. -/
def Event.to_dict (e : Event) : EventDict :=
  { event_id := e.event_id
    title := e.title
    description := e.description
    organizer_id := e.organizer_id
    event_date := e.event_date
    location := e.location
    max_capacity := e.max_capacity
    category := some e.category.value
    status := some e.status.value
    created_at := some e.created_at
    updated_at := some e.updated_at
    current_attendees := some e.current_attendees
    tags := some e.tags }

/-- Method `Event.from_dict`: category defaults to `"other"`, status to `"active"`,
attendee count to `0`, tags to `[]`; unknown enum tags raise (`none`). -/
def Event.from_dict (d : EventDict) (now : String) : Option Event :=
  match EventCategory.ofValue (d.category.getD "other"),
        EventStatus.ofValue (d.status.getD "active") with
  | some cat, some st =>
      some
        { event_id := d.event_id
          title := d.title
          description := d.description
          organizer_id := d.organizer_id
          event_date := d.event_date
          location := d.location
          max_capacity := d.max_capacity
          category := cat
          status := st
          created_at := d.created_at.getD now
          updated_at := d.updated_at.getD now
          current_attendees := d.current_attendees.getD 0
          tags := d.tags.getD [] }
  | _, _ => none

/-! ## Helper lemmas -/

/-- A registration found by `get_registration` carries the looked-up keys. -/
theorem getRegistration_keys {l : List Registration} {e u : String} {r : Registration}
    (h : getRegistration l e u = some r) : r.event_id = e ∧ r.user_id = u := by
  induction l with
  | nil => simp [getRegistration] at h
  | cons x xs ih =>
      rw [getRegistration] at h
      by_cases hx : x.event_id == e && x.user_id == u
      · rw [if_pos hx] at h
        cases h
        simp only [Bool.and_eq_true, beq_iff_eq] at hx
        exact hx
      · rw [if_neg hx] at h
        exact ih h

/-- A registration found by `get_registration` is a stored record. -/
theorem getRegistration_mem {l : List Registration} {e u : String} {r : Registration}
    (h : getRegistration l e u = some r) : r ∈ l := by
  induction l with
  | nil => simp [getRegistration] at h
  | cons x xs ih =>
      rw [getRegistration] at h
      by_cases hx : x.event_id == e && x.user_id == u
      · rw [if_pos hx] at h
        cases h
        exact List.mem_cons_self _ _
      · rw [if_neg hx] at h
        exact List.mem_cons_of_mem _ (ih h)

/-- An event found by `get_event_by_id` carries the looked-up id. -/
theorem getEventById_id {l : List Event} {i : String} {ev : Event}
    (h : getEventById l i = some ev) : ev.event_id = i := by
  induction l with
  | nil => simp [getEventById] at h
  | cons x xs ih =>
      rw [getEventById] at h
      by_cases hx : x.event_id == i
      · rw [if_pos hx] at h
        cases h
        exact beq_iff_eq.mp hx
      · rw [if_neg hx] at h
        exact ih h

/-- Rewriting an event through `_save_event` with the id the lookup found
makes the rewritten record what the next lookup returns. -/
theorem getEventById_saveEventList {l : List Event} {i : String} {ev ev' : Event}
    (h : getEventById l i = some ev) (hid : ev'.event_id = i) :
    getEventById (saveEventList l ev') i = some ev' := by
  induction l with
  | nil => simp [getEventById] at h
  | cons x xs ih =>
      rw [getEventById] at h
      by_cases hx : x.event_id == i
      · rw [saveEventList, if_pos (by rw [hid]; exact hx)]
        rw [getEventById, if_pos (by rw [hid]; exact beq_self_eq_true i)]
      · rw [saveEventList, if_neg (by rw [hid]; exact hx)]
        rw [getEventById, if_neg hx]
        exact ih (by rw [if_neg hx] at h; exact h)

/-- Unfolding of `is_available_for_registration`: active, strictly below
capacity, and every successful parse of the date is strictly in the future
(an unparseable date passes vacuously). -/
theorem is_available_iff (e : Event) (c : Clock) :
    e.is_available_for_registration c = true ↔
      e.status = .active ∧ e.current_attendees < e.max_capacity ∧
        (∀ t : Int, c.parse e.event_date = some t → c.now < t) := by
  rw [Event.is_available_for_registration]
  by_cases hs : e.status = EventStatus.active
  · by_cases hcap : e.current_attendees ≥ e.max_capacity
    · rw [if_neg (by simp [hs]), if_pos hcap]
      simp [hs]
      omega
    · rw [if_neg (by simp [hs]), if_neg hcap]
      cases hp : c.parse e.event_date with
      | none => simp [hs, hp]; omega
      | some t =>
          simp only [hs, hp, true_and, decide_eq_true_eq]
          constructor
          · intro h
            refine ⟨by omega, ?_⟩
            intro t' ht'
            cases ht'
            exact h
          · intro h
            exact h.2 t rfl
  · rw [if_pos (by simp [hs])]
    simp [hs]

/-- Saving via `_save_registration` does not move records: a stored record whose id
differs from the saved one keeps its position and value. -/
theorem saveRegList_getElem?_ne {l : List Registration} {r' : Registration} {i : Nat}
    {x : Registration} (h : l[i]? = some x)
    (hne : x.registration_id ≠ r'.registration_id) :
    (saveRegList l r')[i]? = some x := by
  induction l generalizing i with
  | nil => simp at h
  | cons y ys ih =>
      rw [saveRegList]
      by_cases hy : y.registration_id == r'.registration_id
      · rw [if_pos hy]
        cases i with
        | zero =>
            simp at h
            cases h
            exact absurd (beq_iff_eq.mp hy) hne
        | succ n =>
            simpa using h
      · rw [if_neg hy]
        cases i with
        | zero => simpa using h
        | succ n =>
            simp only [List.getElem?_cons_succ] at h ⊢
            exact ih h

/-- Saving via `_save_registration` preserves the length of the stored collection. -/
theorem saveRegList_length (l : List Registration) (r : Registration) :
    (saveRegList l r).length = l.length := by
  induction l with
  | nil => rfl
  | cons x xs ih =>
      rw [saveRegList]
      by_cases hx : x.registration_id == r.registration_id
      · rw [if_pos hx]
        rfl
      · rw [if_neg hx]
        simp [ih]

/-- The bulk-cancel loop never touches the events collection. -/
theorem bulkCancelLoop_events (s : List Registration) (st : State) (cnt : Nat)
    (reason now : String) :
    (bulkCancelLoop s st cnt reason now).1.events = st.events := by
  induction s generalizing st cnt with
  | nil => rfl
  | cons r rs ih =>
      rw [bulkCancelLoop]
      by_cases hr : r.is_active
      · rw [if_pos hr]
        exact ih _ _
      · rw [if_neg hr]
        exact ih _ _

/-- A head record whose id is hit by none of the pending saves rides along
unchanged through the bulk-cancel loop. -/
theorem bulkCancelLoop_cons (s : List Registration) (ev : List Event)
    (y : Registration) (l : List Registration) (cnt : Nat) (reason now : String)
    (h : ∀ r ∈ s, r.registration_id ≠ y.registration_id) :
    bulkCancelLoop s ⟨ev, y :: l⟩ cnt reason now =
      ((⟨ev, y :: (bulkCancelLoop s ⟨ev, l⟩ cnt reason now).1.registrations⟩ : State),
        (bulkCancelLoop s ⟨ev, l⟩ cnt reason now).2) := by
  induction s generalizing l cnt with
  | nil => rfl
  | cons r rs ih =>
      have hr : r.registration_id ≠ y.registration_id := h r (List.mem_cons_self _ _)
      have hrs : ∀ x ∈ rs, x.registration_id ≠ y.registration_id :=
        fun x hx => h x (List.mem_cons_of_mem _ hx)
      rw [bulkCancelLoop, bulkCancelLoop]
      by_cases ha : r.is_active
      · rw [if_pos ha, if_pos ha]
        have hsave : saveRegList (y :: l) (r.cancel reason now) =
            y :: saveRegList l (r.cancel reason now) := by
          rw [saveRegList, if_neg]
          simp only [Registration.cancel]
          exact fun hc => hr (beq_iff_eq.mp hc).symm
        rw [hsave]
        exact ih _ _ hrs
      · rw [if_neg ha, if_neg ha]
        exact ih _ _ hrs

/-- The record-level effect of one pass of bulk cancellation. -/
def bulkCancelOne (event_id reason now : String) (r : Registration) : Registration :=
  if r.event_id == event_id && r.is_active then r.cancel reason now else r

/-- Characterization of `bulk_cancel_event_registrations` on stores with
distinct registration ids: every active registration of the event is
cancelled in place, every other record is untouched, the events collection
is untouched, and the returned count is the number of registrations
cancelled. -/
theorem bulkCancelLoop_filter (ev : List Event) (l : List Registration)
    (event_id reason now : String) (cnt : Nat)
    (h : (l.map (fun r => r.registration_id)).Nodup) :
    bulkCancelLoop (l.filter (fun r => r.event_id == event_id)) ⟨ev, l⟩ cnt reason now =
      ((⟨ev, l.map (bulkCancelOne event_id reason now)⟩ : State),
        cnt + (l.filter (fun r => r.event_id == event_id && r.is_active)).length) := by
  induction l generalizing cnt with
  | nil => rfl
  | cons x xs ih =>
      simp only [List.map_cons, List.nodup_cons, List.mem_map] at h
      obtain ⟨hx_notin, hxs⟩ := h
      have hxs_ne : ∀ r ∈ xs.filter (fun r => r.event_id == event_id),
          r.registration_id ≠ x.registration_id := by
        intro r hr hc
        exact hx_notin ⟨r, List.mem_of_mem_filter hr, hc⟩
      by_cases he : x.event_id == event_id
      · by_cases ha : x.is_active
        · rw [List.filter_cons_of_pos (by simpa using he)]
          rw [bulkCancelLoop, if_pos ha]
          have hsave : saveRegList (x :: xs) (x.cancel reason now) =
              x.cancel reason now :: xs := by
            rw [saveRegList, if_pos]
            simp [Registration.cancel]
          rw [hsave]
          rw [bulkCancelLoop_cons _ ev _ xs (cnt + 1) reason now
            (by simpa [Registration.cancel] using hxs_ne)]
          rw [ih (cnt + 1) hxs]
          simp only [List.map_cons, List.filter_cons, he, ha, Bool.and_self,
            if_true, List.length_cons, bulkCancelOne, Prod.mk.injEq, State.mk.injEq]
          exact ⟨trivial, by omega⟩
        · have ha' : x.is_active = false := by simpa using ha
          rw [List.filter_cons_of_pos (by simpa using he)]
          rw [bulkCancelLoop, if_neg ha]
          rw [bulkCancelLoop_cons _ ev _ xs cnt reason now hxs_ne]
          rw [ih cnt hxs]
          simp only [List.map_cons, List.filter_cons, he, ha', Bool.and_false,
            List.length_cons, bulkCancelOne, Prod.mk.injEq, State.mk.injEq,
            if_false, Bool.false_eq_true]
      · have he' : (x.event_id == event_id) = false := by simpa using he
        rw [List.filter_cons_of_neg (by simpa using he)]
        rw [bulkCancelLoop_cons _ ev _ xs cnt reason now hxs_ne]
        rw [ih cnt hxs]
        simp only [List.map_cons, List.filter_cons, he', Bool.false_and,
          List.length_cons, bulkCancelOne, Prod.mk.injEq, State.mk.injEq,
          if_false, Bool.false_eq_true]

/-- The run of `bulk_cancel_event_registrations`, fully characterized (distinct ids). -/
theorem bulkCancel_eq_map (st : State) (event_id reason now : String)
    (h : (st.registrations.map (fun r => r.registration_id)).Nodup) :
    bulkCancelEventRegistrations st event_id reason now =
      ((⟨st.events, st.registrations.map (bulkCancelOne event_id reason now)⟩ : State),
        (st.registrations.filter
          (fun r => r.event_id == event_id && r.is_active)).length) := by
  rw [bulkCancelEventRegistrations]
  have := bulkCancelLoop_filter st.events st.registrations event_id reason now 0 h
  simpa using this

/-! ## Concrete fixtures for witnesses and counterexamples -/

/-- Build an event record with fixed filler fields. -/
def mkEvent (event_id : String) (cap cur : Nat) (status : EventStatus)
    (date : String) : Event :=
  { event_id := event_id
    title := "t"
    description := "d"
    organizer_id := "org"
    event_date := date
    location := "hall"
    max_capacity := cap
    category := .other
    status := status
    created_at := "t0"
    updated_at := "t0"
    current_attendees := cur
    tags := [] }

/-- A clock under which the date string "future" parses to instant 1, any
other string fails to parse, and the current instant is 0. -/
def futureClock : Clock :=
  { parse := fun s => if s == "future" then some 1 else none
    now := 0 }

/-- An administrator record. -/
def adminUser : User :=
  { user_id := "u0"
    username := "root"
    email := "root@campus"
    password := "pw"
    role := .admin
    full_name := "Root"
    created_at := "t0"
    last_login := none
    is_active := true }

/-! ## C2: Admin permissions -/

/-- C2, counterexample: the claim says an Admin is authorized for every
action string, but `has_permission` checks membership in Admin's fixed
six-action list, so the action "register_event" (a real action of the
system, granted to students and visitors) is denied to an Admin. -/
theorem C2_admin_denied_register_event :
    adminUser.role = UserRole.admin ∧
      adminUser.has_permission "register_event" = false := by
  constructor
  · rfl
  · decide

/-- C2, amended: an Admin is authorized exactly for the six actions of the
Admin entry of the permission table — create_event, update_event,
delete_event, view_all_events, view_all_users, generate_reports — and for
no other action string. -/
theorem C2_admin_permission_list (u : User) (action : String)
    (h : u.role = UserRole.admin) :
    u.has_permission action = true ↔
      action ∈ ["create_event", "update_event", "delete_event",
                "view_all_events", "view_all_users", "generate_reports"] := by
  rw [User.has_permission, h]
  rw [rolePermissions]
  exact List.elem_iff

/-- C2 witness: evaluating the amended statement at the concrete admin user
and the action "delete_event". -/
theorem C2_admin_permission_list_witness :
    adminUser.has_permission "delete_event" = true :=
  (C2_admin_permission_list adminUser "delete_event" rfl).mpr (by decide)

/-! ## C5: availability predicate -/

/-- Modelled from the spec's words (for refinement comparison only):
"status == Active AND currentAttendees < maxCapacity AND datetime > now",
with "datetime > now" read as: the stored date string denotes an instant
strictly after the current one. -/
def specAvailable (e : Event) (c : Clock) : Prop :=
  e.status = .active ∧ e.current_attendees < e.max_capacity ∧
    ∃ t : Int, c.parse e.event_date = some t ∧ c.now < t

/-- An active, far-from-full event whose stored date string is not
parseable. -/
def c5Event : Event := mkEvent "e5" 5 0 .active "not-a-date"

/-- C5, counterexample: the claimed equivalence is quantified over all
events including those with unparseable date strings, but for such an event
the code returns `true` (the bare `except: return True`) while the spec's
conjunct "datetime > now" does not hold — there is no parsed instant at
all. -/
theorem C5_unparseable_date_counterexample :
    c5Event.is_available_for_registration futureClock = true ∧
      futureClock.parse c5Event.event_date = none ∧
      ¬ specAvailable c5Event futureClock := by
  refine ⟨by decide, by decide, ?_⟩
  rintro ⟨-, -, t, ht, -⟩
  have : futureClock.parse c5Event.event_date = none := by decide
  rw [this] at ht
  cases ht

/-- C5, amended: `is_available_for_registration` returns true iff the event
is Active, strictly below capacity, and every successful parse of its date
string yields a strictly future instant — so an event whose stored date
string fails to parse counts as available. -/
theorem C5_available_iff (e : Event) (c : Clock) :
    e.is_available_for_registration c = true ↔
      e.status = .active ∧ e.current_attendees < e.max_capacity ∧
        (∀ t : Int, c.parse e.event_date = some t → c.now < t) :=
  is_available_iff e c

/-! ## C9: serialization round trip -/

/-- C9: `from_dict` inverts `to_dict` for registrations and events — every
field (ids, status, timestamps, notes, capacity, category, tags) is
reproduced exactly; the `now` default for missing timestamps is never
consulted because `to_dict` emits every key. -/
theorem C9_to_dict_from_dict_roundtrip :
    (∀ (r : Registration) (now : String),
        Registration.from_dict r.to_dict now = some r) ∧
      (∀ (e : Event) (now : String), Event.from_dict e.to_dict now = some e) := by
  constructor
  · intro r now
    obtain ⟨a, b, c, s, d, e, f⟩ := r
    cases s <;> rfl
  · intro e now
    obtain ⟨a, b, c, d, e', f, g, cat, st, h, i, j, k⟩ := e
    cases cat <;> cases st <;> rfl

/-! ## C8: idempotence of cancellation -/

/-- C8: when the fetched registration for the pair is not active (already
cancelled, attended or no-show), `cancel_registration` returns the
already-cancelled failure and the state — both collections, hence also the
event's attendee count — is unchanged. -/
theorem C8_cancel_already_cancelled (st : State)
    (event_id user_id reason now : String) (r : Registration)
    (hfind : getRegistration st.registrations event_id user_id = some r)
    (hinactive : r.is_active = false) :
    cancelRegistration st event_id user_id reason now =
      (CancelOutcome.alreadyCancelled, st) := by
  rw [cancelRegistration, hfind]
  simp [hinactive]

/-- A store holding one cancelled registration for the pair ("e8","u8"). -/
def c8State : State :=
  { events := [mkEvent "e8" 3 0 .active "future"]
    registrations :=
      [{ registration_id := "r8"
         event_id := "e8"
         user_id := "u8"
         status := .cancelled
         registered_at := "t0"
         updated_at := "t1"
         notes := "first cancel" }] }

/-- C8 witness: cancelling the already-cancelled registration of `c8State`
is rejected and leaves the state untouched. -/
theorem C8_cancel_already_cancelled_witness :
    cancelRegistration c8State "e8" "u8" "again" "t2" =
      (CancelOutcome.alreadyCancelled, c8State) :=
  C8_cancel_already_cancelled c8State "e8" "u8" "again" "t2" _ rfl (by decide)

/-! ## C10: cancelling a registration of a missing event -/

/-- C10, counterexample input: no event record at all, and two stored
registrations for the pair ("e10","u10") — a stale cancelled one followed by
a confirmed (active) one, the shape the register/cancel/register sequence of
operations leaves behind. -/
def c10cState : State :=
  { events := []
    registrations :=
      [{ registration_id := "rA", event_id := "e10", user_id := "u10",
         status := .cancelled, registered_at := "t0", updated_at := "t1",
         notes := "old" },
       { registration_id := "rB", event_id := "e10", user_id := "u10",
         status := .confirmed, registered_at := "t2", updated_at := "t2",
         notes := "" }] }

/-- C10, counterexample: the claim quantifies over every state containing an
active registration for the pair; `c10cState` contains one (the confirmed
record "rB") and no event record, yet `cancel_registration` does not
succeed — `get_registration` fetches the pair's first record, the stale
cancelled "rA", so the call returns the already-cancelled failure and
changes nothing. -/
theorem C10_stale_record_counterexample :
    (c10cState.registrations.any fun r =>
        r.event_id == "e10" && r.user_id == "u10" && r.is_active) = true ∧
      getEventById c10cState.events "e10" = none ∧
      cancelRegistration c10cState "e10" "u10" "event gone" "t3" =
        (CancelOutcome.alreadyCancelled, c10cState) := by
  decide

/-- C10, amended: when the registration `get_registration` fetches for the
pair — the first stored record for (eventId, userId) — is active and no
event record exists under that eventId, `cancel_registration` still
succeeds: the fetched registration is cancelled and written back, the
events collection is untouched (no slot release is attempted), and the
outcome is success, not a not-found failure.  (When a stale inactive record
precedes the active one, the call instead fails already-cancelled and
changes nothing.) -/
theorem C10_cancel_without_event (st : State)
    (event_id user_id reason now : String) (r : Registration)
    (hfind : getRegistration st.registrations event_id user_id = some r)
    (hactive : r.is_active = true)
    (hnoev : getEventById st.events event_id = none) :
    cancelRegistration st event_id user_id reason now =
      (CancelOutcome.ok,
        { events := st.events
          registrations := saveRegList st.registrations (r.cancel reason now) }) := by
  rw [cancelRegistration, hfind]
  simp [hactive, hnoev]

/-- A store holding one confirmed registration for the pair ("ghost","u10")
and no event record at all. -/
def c10State : State :=
  { events := []
    registrations :=
      [{ registration_id := "r10"
         event_id := "ghost"
         user_id := "u10"
         status := .confirmed
         registered_at := "t0"
         updated_at := "t0"
         notes := "" }] }

/-- C10 witness: cancelling against the missing event "ghost" succeeds and
cancels the stored registration. -/
theorem C10_cancel_without_event_witness :
    cancelRegistration c10State "ghost" "u10" "event gone" "t1" =
      (CancelOutcome.ok,
        { events := ([] : List Event)
          registrations :=
            [{ registration_id := "r10"
               event_id := "ghost"
               user_id := "u10"
               status := .cancelled
               registered_at := "t0"
               updated_at := "t1"
               notes := "event gone" }] }) := by
  have h := C10_cancel_without_event c10State "ghost" "u10" "event gone" "t1" _
    rfl (by decide) rfl
  rw [h]
  rfl

/-! ## C3: capacity boundary -/

/-- An active future-dated event that is exactly full. -/
def c3Event : Event := mkEvent "e3" 2 2 .active "future"

/-- A store holding only the full event `c3Event`. -/
def c3State : State := { events := [c3Event], registrations := [] }

/-- C3, counterexample: registering for an Active event with
`currentAttendees == maxCapacity` fails with the generic "event not
available" outcome — the availability pre-check already rejects a full
event — not with the distinct "event is full" outcome the claim requires;
the dedicated full-event branch is unreachable in this sequential flow. -/
theorem C3_full_event_wrong_outcome :
    c3Event.status = EventStatus.active ∧
      c3Event.current_attendees = c3Event.max_capacity ∧
      registerForEvent c3State futureClock "e3" "u3" "r3" "t1" =
        (RegOutcome.eventNotAvailable, c3State) ∧
      RegOutcome.eventNotAvailable ≠ RegOutcome.eventFull := by
  refine ⟨rfl, rfl, ?_, by decide⟩
  decide

/-- C3, amended: for an Active event at exact capacity, `register_for_event`
fails with the event-not-available outcome (not event-full) and changes
nothing; for an Active future-dated event with exactly one slot left and no
active existing registration for the user, it succeeds and the stored event
becomes full. -/
theorem C3_capacity_boundary (st : State) (c : Clock)
    (event_id user_id newId now : String) (ev : Event)
    (hev : getEventById st.events event_id = some ev)
    (hactive : ev.status = EventStatus.active) :
    (ev.current_attendees = ev.max_capacity →
        registerForEvent st c event_id user_id newId now =
          (RegOutcome.eventNotAvailable, st)) ∧
      (ev.current_attendees + 1 = ev.max_capacity →
        (∀ t : Int, c.parse ev.event_date = some t → c.now < t) →
        (∀ r, getRegistration st.registrations event_id user_id = some r →
          r.is_active = false) →
        (registerForEvent st c event_id user_id newId now).1 =
            RegOutcome.success (Registration.init newId event_id user_id now) ∧
          ∃ ev', getEventById
              (registerForEvent st c event_id user_id newId now).2.events event_id =
                some ev' ∧
            ev'.current_attendees = ev'.max_capacity) := by
  constructor
  · intro hfullcap
    have hav : ev.is_available_for_registration c = false := by
      rw [Event.is_available_for_registration]
      rw [if_neg (by simp [hactive])]
      rw [if_pos (by omega)]
    rw [registerForEvent, hev]
    dsimp only
    rw [if_pos (by simp [hav])]
  · intro hone hdate hnoreg
    have hav : ev.is_available_for_registration c = true :=
      (is_available_iff ev c).mpr ⟨hactive, by omega, hdate⟩
    have hreg : (getRegistration st.registrations event_id user_id).any
        (fun r => r.is_active) = false := by
      cases h2 : getRegistration st.registrations event_id user_id with
      | none => rfl
      | some r => simpa using hnoreg r h2
    have hfull : ev.is_full = false := by
      rw [Event.is_full]
      simp
      omega
    have hrun : registerForEvent st c event_id user_id newId now =
        (RegOutcome.success (Registration.init newId event_id user_id now),
          { events := saveEventList st.events ((ev.add_attendee now).1)
            registrations :=
              st.registrations ++ [Registration.init newId event_id user_id now] }) := by
      rw [registerForEvent, hev]
      dsimp only
      rw [if_neg (by simp [hav])]
      rw [if_neg (by simp [hreg])]
      rw [if_neg (by simp [hfull])]
    have hadd : (ev.add_attendee now).1 =
        { ev with current_attendees := ev.current_attendees + 1, updated_at := now } := by
      rw [Event.add_attendee, if_pos (by omega)]
    refine ⟨by rw [hrun], ?_⟩
    refine ⟨(ev.add_attendee now).1, ?_, ?_⟩
    · rw [hrun]
      exact getEventById_saveEventList hev
        (by rw [hadd]; show ev.event_id = event_id; exact getEventById_id hev)
    · rw [hadd]
      simpa using hone

/-- An active future-dated event that is exactly full (witness copy). -/
def c3wFullState : State :=
  { events := [mkEvent "e3f" 1 1 .active "future"], registrations := [] }

/-- An active future-dated event with exactly one slot left. -/
def c3wOneState : State :=
  { events := [mkEvent "e3o" 1 0 .active "future"], registrations := [] }

/-- C3 witness: the amended statement evaluated on a full one-seat event and
on an empty one-seat event. -/
theorem C3_capacity_boundary_witness :
    (registerForEvent c3wFullState futureClock "e3f" "u" "rA" "t1" =
        (RegOutcome.eventNotAvailable, c3wFullState)) ∧
      ((registerForEvent c3wOneState futureClock "e3o" "u" "rB" "t1").1 =
          RegOutcome.success (Registration.init "rB" "e3o" "u" "t1") ∧
        ∃ ev', getEventById
            (registerForEvent c3wOneState futureClock "e3o" "u" "rB" "t1").2.events
              "e3o" = some ev' ∧
          ev'.current_attendees = ev'.max_capacity) := by
  constructor
  · exact (C3_capacity_boundary c3wFullState futureClock "e3f" "u" "rA" "t1"
      (mkEvent "e3f" 1 1 .active "future") rfl rfl).1 rfl
  · refine (C3_capacity_boundary c3wOneState futureClock "e3o" "u" "rB" "t1"
      (mkEvent "e3o" 1 0 .active "future") rfl rfl).2 rfl ?_ ?_
    · intro t ht
      have h1 : (some (1 : Int)) = some t := ht
      injection h1 with h2
      rw [← h2]
      decide
    · intro r h
      exact Option.noConfusion h

/-! ## C7: bulk cancellation -/

/-- C7: on a store with distinct registration ids, bulk cancellation
rewrites each of the event's active registrations to its cancelled form
(status `Cancelled`, the reason in `notes` — see `bulkCancelOne` and
`Registration.cancel`), leaves every other registration and the whole
events collection (hence `current_attendees`) untouched, and returns the
number of active registrations the event had. -/
theorem C7_bulk_cancel_spec (st : State) (event_id reason now : String)
    (h : (st.registrations.map (fun r => r.registration_id)).Nodup) :
    bulkCancelEventRegistrations st event_id reason now =
      ({ events := st.events
         registrations := st.registrations.map (bulkCancelOne event_id reason now) },
        (st.registrations.filter
          (fun r => r.event_id == event_id && r.is_active)).length) :=
  bulkCancel_eq_map st event_id reason now h

/-- A store with three registrations: an active and a cancelled one on event
"e7" and an active one on another event. -/
def c7State : State :=
  { events := [mkEvent "e7" 5 1 .active "future"]
    registrations :=
      [{ registration_id := "ra", event_id := "e7", user_id := "u1",
         status := .confirmed, registered_at := "t0", updated_at := "t0", notes := "" },
       { registration_id := "rb", event_id := "e7", user_id := "u2",
         status := .cancelled, registered_at := "t0", updated_at := "t0", notes := "x" },
       { registration_id := "rc", event_id := "other", user_id := "u3",
         status := .confirmed, registered_at := "t0", updated_at := "t0", notes := "" }] }

/-- C7 witness: bulk-cancelling event "e7" of `c7State` cancels exactly the
one active registration of that event and reports count 1. -/
theorem C7_bulk_cancel_spec_witness :
    bulkCancelEventRegistrations c7State "e7" "event closed" "t9" =
      ({ events := c7State.events
         registrations :=
           c7State.registrations.map (bulkCancelOne "e7" "event closed" "t9") }, 1) := by
  rw [C7_bulk_cancel_spec c7State "e7" "event closed" "t9" (by decide)]
  decide

/-! ## C4: terminal registration statuses -/

/-- The statuses the spec calls terminal. -/
def isTerminal (s : RegStatus) : Bool :=
  s == .cancelled || s == .attended || s == .noShow

/-- A terminal-status registration is not active. -/
theorem not_active_of_terminal (r : Registration) (h : isTerminal r.status = true) :
    r.is_active = false := by
  rw [Registration.is_active]
  cases hs : r.status <;> rw [isTerminal, hs] at h <;> simp_all

/-- Evolution predicate: `old` evolves to `new` without touching any record whose status is
terminal: such a record survives at its position, bit for bit. -/
def preservesTerminal (old new : List Registration) : Prop :=
  ∀ i, i < old.length →
    (old[i]?.any fun r => isTerminal r.status) = true → new[i]? = old[i]?

/-- Reflexivity of `preservesTerminal`. -/
theorem preservesTerminal_refl (l : List Registration) : preservesTerminal l l :=
  fun _ _ _ => rfl

/-- Operation `register_for_event` either leaves the registrations collection alone or
appends the freshly created registration at its end. -/
theorem registerForEvent_registrations_cases (st : State) (c : Clock)
    (event_id user_id newId now : String) :
    (registerForEvent st c event_id user_id newId now).2.registrations =
        st.registrations ∨
      (registerForEvent st c event_id user_id newId now).2.registrations =
        st.registrations ++ [Registration.init newId event_id user_id now] := by
  rw [registerForEvent]
  cases getEventById st.events event_id with
  | none => exact Or.inl rfl
  | some ev =>
      dsimp only
      split
      · exact Or.inl rfl
      · split
        · exact Or.inl rfl
        · split
          · exact Or.inl rfl
          · exact Or.inr rfl

/-- C4, counterexample input: a store holding a single already-cancelled
registration. -/
def c4State : State :=
  { events := []
    registrations :=
      [{ registration_id := "r4", event_id := "e4", user_id := "u4",
         status := .cancelled, registered_at := "t0", updated_at := "t0",
         notes := "was cancelled" }] }

/-- C4, counterexample: `mark_attendance` has no status guard, so it moves
the already-Cancelled registration of `c4State` to `Attended`; Cancelled is
therefore not terminal under `mark_attendance`, contradicting the claim
that no operation leaves the three terminal states. -/
theorem C4_mark_attendance_leaves_cancelled :
    ((c4State.registrations.head?.map fun r => r.status) = some RegStatus.cancelled) ∧
      (markAttendance c4State "r4" true "t2").1 = true ∧
      (((markAttendance c4State "r4" true "t2").2.registrations.head?.map
          fun r => r.status) = some RegStatus.attended) := by
  decide

/-- C4, amended: Cancelled, Attended and NoShow registrations are never
modified by `register_for_event`, `cancel_registration` or
`bulk_cancel_event_registrations` (on stores with distinct registration
ids) — but they are not terminal for `mark_attendance`, which rewrites the
status of whatever registration matches the id regardless of its current
state. -/
theorem C4_terminal_preserved_by_register_cancel_bulk (st : State) (c : Clock)
    (event_id user_id newId reason now : String)
    (h : (st.registrations.map (fun r => r.registration_id)).Nodup) :
    preservesTerminal st.registrations
        (registerForEvent st c event_id user_id newId now).2.registrations ∧
      preservesTerminal st.registrations
        (cancelRegistration st event_id user_id reason now).2.registrations ∧
      preservesTerminal st.registrations
        (bulkCancelEventRegistrations st event_id reason now).1.registrations := by
  refine ⟨?_, ?_, ?_⟩
  · rcases registerForEvent_registrations_cases st c event_id user_id newId now with
      hcase | hcase
    · rw [hcase]
      exact preservesTerminal_refl _
    · rw [hcase]
      intro i hi _
      exact List.getElem?_append_left hi
  · rw [cancelRegistration]
    cases hfind : getRegistration st.registrations event_id user_id with
    | none => exact preservesTerminal_refl _
    | some r =>
        dsimp only
        by_cases hact : r.is_active = true
        · rw [if_neg (by simp [hact])]
          have hmem : r ∈ st.registrations := getRegistration_mem hfind
          have goalsave : preservesTerminal st.registrations
              (saveRegList st.registrations (r.cancel reason now)) := by
            intro i hi hterm
            cases hx : st.registrations[i]? with
            | none => simp [hx] at hterm
            | some x =>
                rw [hx] at hterm
                have hxterm : isTerminal x.status = true := by simpa using hterm
                have hxmem : x ∈ st.registrations := List.getElem?_mem hx
                have hne : x.registration_id ≠ (r.cancel reason now).registration_id := by
                  intro hc
                  have hxr : x = r := List.inj_on_of_nodup_map h hxmem hmem
                    (by simpa [Registration.cancel] using hc)
                  rw [hxr] at hxterm
                  rw [not_active_of_terminal r hxterm] at hact
                  exact Bool.noConfusion hact
                exact saveRegList_getElem?_ne hx hne
          cases getEventById st.events event_id with
          | some ev => exact goalsave
          | none => exact goalsave
        · rw [if_pos (by simpa using hact)]
          exact preservesTerminal_refl _
  · rw [bulkCancel_eq_map st event_id reason now h]
    intro i hi hterm
    cases hx : st.registrations[i]? with
    | none => simp [hx] at hterm
    | some x =>
        rw [hx] at hterm
        have hxterm : isTerminal x.status = true := by simpa using hterm
        rw [List.getElem?_map, hx]
        have hone : bulkCancelOne event_id reason now x = x := by
          rw [bulkCancelOne, if_neg]
          rw [not_active_of_terminal x hxterm]
          simp
        rw [Option.map_some', hone]

/-- A store with one attended and one confirmed registration, distinct
ids. -/
def c4wState : State :=
  { events := [mkEvent "e4w" 4 1 .active "future"]
    registrations :=
      [{ registration_id := "rw1", event_id := "e4w", user_id := "u1",
         status := .attended, registered_at := "t0", updated_at := "t0", notes := "" },
       { registration_id := "rw2", event_id := "e4w", user_id := "u2",
         status := .confirmed, registered_at := "t0", updated_at := "t0", notes := "" }] }

/-- C4 witness: the amended preservation statement evaluated on `c4wState`
for one concrete choice of arguments. -/
theorem C4_terminal_preserved_witness :
    preservesTerminal c4wState.registrations
        (registerForEvent c4wState futureClock "e4w" "u2" "rw3" "t5").2.registrations ∧
      preservesTerminal c4wState.registrations
        (cancelRegistration c4wState "e4w" "u2" "bye" "t5").2.registrations ∧
      preservesTerminal c4wState.registrations
        (bulkCancelEventRegistrations c4wState "e4w" "bye" "t5").1.registrations :=
  C4_terminal_preserved_by_register_cancel_bulk c4wState futureClock "e4w" "u2" "rw3"
    "bye" "t5" (by decide)

/-! ## C1: uniqueness of active registrations -/

/-- Number of active (Pending/Confirmed) registrations stored for a
(event, user) pair. -/
def activeCountFor (st : State) (event_id user_id : String) : Nat :=
  (st.registrations.filter
    (fun r => r.event_id == event_id && r.user_id == user_id && r.is_active)).length

/-- The spec's uniqueness invariant, decided over the pairs present in the
store: no active registration shares its (event, user) pair with a second
active one. -/
def uniqueInvariantB (st : State) : Bool :=
  st.registrations.all fun r =>
    !r.is_active || decide (activeCountFor st r.event_id r.user_id ≤ 1)

/-- C1, failing input: an empty registration store with one three-seat
active future event. -/
def c1State0 : State :=
  { events := [mkEvent "e1" 3 0 .active "future"], registrations := [] }

def c1Step1 : RegOutcome × State :=
  registerForEvent c1State0 futureClock "e1" "u1" "r1" "t1"

def c1Step2 : CancelOutcome × State :=
  cancelRegistration c1Step1.2 "e1" "u1" "busy" "t2"

def c1Step3 : RegOutcome × State :=
  registerForEvent c1Step2.2 futureClock "e1" "u1" "r2" "t3"

def c1Step4 : RegOutcome × State :=
  registerForEvent c1Step3.2 futureClock "e1" "u1" "r3" "t4"

/-- C1: the uniqueness invariant is not preserved.  From an invariant-holding
state, the operation sequence register, cancel, register, register on the
same (event, user) pair runs entirely through success paths and ends with
two Confirmed registrations for the pair: after the cancellation the
pair's oldest record is Cancelled, `get_registration` keeps returning that
stale first record, and the duplicate check in `register_for_event` never
sees the later active one. -/
theorem C1_uniqueness_violated :
    uniqueInvariantB c1State0 = true ∧
      c1Step1.1 = RegOutcome.success (Registration.init "r1" "e1" "u1" "t1") ∧
      c1Step2.1 = CancelOutcome.ok ∧
      c1Step3.1 = RegOutcome.success (Registration.init "r2" "e1" "u1" "t3") ∧
      c1Step4.1 = RegOutcome.success (Registration.init "r3" "e1" "u1" "t4") ∧
      activeCountFor c1Step4.2 "e1" "u1" = 2 ∧
      uniqueInvariantB c1Step4.2 = false := by
  decide

/-! ## C6: register/cancel round trip -/

/-- Attendee count the store records for an event id. -/
def attendeesOf (st : State) (event_id : String) : Option Nat :=
  (getEventById st.events event_id).map fun e => e.current_attendees

/-- C6, failing input: a two-seat active future event at zero attendees,
with one historical cancelled registration for the pair ("e6","u6"). -/
def c6State0 : State :=
  { events := [mkEvent "e6" 2 0 .active "future"]
    registrations :=
      [{ registration_id := "r60", event_id := "e6", user_id := "u6",
         status := .cancelled, registered_at := "t0", updated_at := "t0",
         notes := "old" }] }

def c6Step1 : RegOutcome × State :=
  registerForEvent c6State0 futureClock "e6" "u6" "r61" "t1"

def c6Step2 : CancelOutcome × State :=
  cancelRegistration c6Step1.2 "e6" "u6" "plans changed" "t2"

/-- C6: the round trip fails.  Registration succeeds (the pair's only prior
record is cancelled, so the duplicate check passes) and raises the attendee
count from 0 to 1; but the immediately following cancellation fetches the
same stale cancelled first record, returns the already-cancelled failure,
changes nothing, and leaves `current_attendees` at 1 instead of restoring
0. -/
theorem C6_roundtrip_fails :
    attendeesOf c6State0 "e6" = some 0 ∧
      c6Step1.1 = RegOutcome.success (Registration.init "r61" "e6" "u6" "t1") ∧
      c6Step2.1 = CancelOutcome.alreadyCancelled ∧
      c6Step2.2 = c6Step1.2 ∧
      attendeesOf c6Step2.2 "e6" = some 1 := by
  decide

end CampusEvent
